import Mathlib

/-!
A shallow embedding of the RustAPIStarter core (`src/api.rs`, `src/core/config.rs`):
the TLS credential loader `load_rustls_config`, the fluent `Api` builder, and the
startup path `Api::start` with its middleware assembly and rate-limit (governor)
configuration. External collaborators (rustls PEM parsing, actix-web middleware
ordering, actix-governor, actix-cors) are modelled from their documented behaviour,
noted at each definition.
-/

/-- A cross-origin policy object as produced by the actix-cors `Cors` builder.
Only the permissiveness flags relevant here are modelled. -/
structure Cors where
  allow_any_origin : Bool
  allow_any_method : Bool
  allow_any_header : Bool
deriving DecidableEq

/-- Modelled from the actix-cors documentation: `Cors::default()` is "a restrictive
(security-first) set of defaults" — the allowed origins, methods and request
headers lists are empty, so nothing cross-origin is allowed. -/
def Cors.default : Cors := ⟨false, false, false⟩

/-- Modelled from the actix-cors documentation: `Cors::permissive()` is "a very
permissive set of default functionality" — any origin, method and header allowed. -/
def Cors.permissive : Cors := ⟨true, true, true⟩

/-- The result of parsing one PEM section of a certificate file: either a parseable
certificate block carrying its DER payload (abstracted to a `Nat`), or a malformed
block. `CertificateDer::pem_file_iter` yields exactly this sequence of `Result`s,
in file order. -/
inductive PemItem where
  | ok (der : Nat)
  | bad
deriving DecidableEq

/-- The file-system view that `load_rustls_config` reads through (rustls pki-types):
`pemFile p` is `none` when the file at `p` is unreadable (the outer `Err` of
`pem_file_iter`), otherwise the list of per-block parse results in file order;
`keyFile p` is `none` when `PrivateKeyDer::from_pem_file` finds no parseable
private key at `p`, otherwise the key's DER (abstracted to a `Nat`);
`keyMatches k c` abstracts rustls's `with_single_cert` check that the private key
`k` corresponds to (and has a supported algorithm for) the end-entity certificate
`c`. -/
structure Fs where
  pemFile : String → Option (List PemItem)
  keyFile : String → Option Nat
  keyMatches : Nat → Nat → Bool

/-- The certificate chain that `res.flatten().collect()` builds at config.rs line 15:
`Result` items are flattened, so malformed blocks are dropped and the parseable
blocks are kept in file order. -/
def collectCerts (items : List PemItem) : List Nat :=
  items.filterMap fun i => match i with | .ok d => some d | .bad => none

/-- The four failure branches of `load_rustls_config` (config.rs lines 18-25, 31-34,
43-46), named as in the spec's taxonomy. In the source each branch prints its own
distinct diagnostic and returns `None`. -/
inductive TlsError where
  | PemParseError
  | EmptyChain
  | KeyLoadError
  | TlsConfigError
deriving DecidableEq

/-- The rustls `ServerConfig` produced on success: the collected chain, the loaded
key, and no client authentication (`with_no_client_auth`, config.rs line 39). -/
structure ServerConfig where
  cert_chain : List Nat
  key_der : Nat
  client_auth : Bool
deriving DecidableEq

/-- Embedding of `load_rustls_config` (config.rs lines 9-48). The source returns
`Option<ServerConfig>` and prints a branch-specific diagnostic on each failure;
the branch is captured here as a `TlsError` (see `tlsErrorMsg` for the printed
text). Branch order as in the source: certificate chain first (`Err` of
`pem_file_iter` = unreadable file; empty collected chain), then the private key,
then `with_single_cert`. -/
def load_rustls_config (fs : Fs) (cert_path key_path : String) :
    Except TlsError ServerConfig :=
  match fs.pemFile cert_path with
  | none => .error .PemParseError
  | some items =>
    match collectCerts items with
    | [] => .error .EmptyChain
    | leaf :: rest =>
      match fs.keyFile key_path with
      | none => .error .KeyLoadError
      | some key =>
        if fs.keyMatches key leaf then .ok ⟨leaf :: rest, key, false⟩
        else .error .TlsConfigError

/-- The diagnostic `load_rustls_config` prints on each failure branch (config.rs
lines 19, 23, 32, 44), with the runtime-formatted error details elided. -/
def tlsErrorMsg (e : TlsError) (cert_path key_path : String) : String :=
  match e with
  | .PemParseError => "Error: Failed to parse PEM file at " ++ cert_path
  | .EmptyChain => "Error: No certificates found in " ++ cert_path
  | .KeyLoadError => "Error: No private key found in " ++ key_path
  | .TlsConfigError => "Error: Failed to build TLS configuration"

/-- The mutable service-registration handle passed to a route registrar; a route
is abstracted to its name. -/
abbrev ServiceConfig := List String

/-- Modelled from the spec: the `crate::routes` module is not under `src/`. Per the
spec, a `Routes` value is consumed by a route registrar, "a callback that, given a
mutable service-registration handle, attaches application endpoints"; it is
modelled as the list of endpoints it attaches. -/
structure Routes where
  endpoints : List String

/-- Modelled from the spec: `Routes::configure` attaches the carried endpoints to
the service-registration handle. -/
def Routes.configure (r : Routes) (cfg : ServiceConfig) : ServiceConfig :=
  cfg ++ r.endpoints

/-- The `Api` struct (api.rs lines 9-18). `u16`/`u64`/`u32` fields are embedded as
`Nat` (no arithmetic is performed on them). The `Arc` closures become plain Lean
functions. -/
structure Api where
  cert_path : String
  key_path : String
  db_path : String
  addr : String
  port : Nat
  rate_limit : Nat × Nat
  custom_routes : Option (ServiceConfig → ServiceConfig)
  custom_cors : Unit → Cors

/-- `Api::new` (api.rs lines 32-43). -/
def Api.new : Api :=
  { cert_path := "certs/cert.pem"
    key_path := "certs/key.pem"
    db_path := "users.db"
    addr := "127.0.0.1"
    port := 8443
    rate_limit := (3, 20)
    custom_routes := none
    custom_cors := fun _ => Cors.default }

/-- `Api::certs` (api.rs lines 62-66). -/
def Api.certs (api : Api) (cert key : String) : Api :=
  { api with cert_path := cert, key_path := key }

/-- `Api::auth_db` (api.rs lines 83-86). -/
def Api.auth_db (api : Api) (path : String) : Api :=
  { api with db_path := path }

/-- `Api::rate_limit` (api.rs lines 105-108); renamed in the embedding because the
record field of the same name exists. -/
def Api.set_rate_limit (api : Api) (per_second burst_size : Nat) : Api :=
  { api with rate_limit := (per_second, burst_size) }

/-- `Api::bind` (api.rs lines 126-130). -/
def Api.bind (api : Api) (addr : String) (port : Nat) : Api :=
  { api with addr := addr, port := port }

/-- `Api::configure_routes` (api.rs lines 133-136). -/
def Api.configure_routes (api : Api) (routes : Routes) : Api :=
  { api with custom_routes := some fun cfg => routes.configure cfg }

/-- `Api::configure_cors` (api.rs lines 157-163). -/
def Api.configure_cors (api : Api) (cors_config : Unit → Cors) : Api :=
  { api with custom_cors := cors_config }

/-- `Api::get_cert_path` (api.rs line 205). -/
def Api.get_cert_path (api : Api) : String := api.cert_path

/-- `Api::get_key_path` (api.rs line 206). -/
def Api.get_key_path (api : Api) : String := api.key_path

/-- `Api::get_db_path` (api.rs line 207). -/
def Api.get_db_path (api : Api) : String := api.db_path

/-- `Api::get_addr` (api.rs line 208). -/
def Api.get_addr (api : Api) : String := api.addr

/-- `Api::get_port` (api.rs line 209). -/
def Api.get_port (api : Api) : Nat := api.port

/-- `Api::get_rate_limit` (api.rs line 210). -/
def Api.get_rate_limit (api : Api) : Nat × Nat := api.rate_limit

/-- `Api::get_bind_addr` (api.rs line 211): the same format string as the bind
address built in `start` (api.rs line 181). -/
def Api.get_bind_addr (api : Api) : String :=
  api.addr ++ ":" ++ toString api.port

/-- `Api::get_rate_limit_per_second` (api.rs line 212). -/
def Api.get_rate_limit_per_second (api : Api) : Nat := api.rate_limit.1

/-- `Api::get_rate_limit_burst_size` (api.rs line 213). -/
def Api.get_rate_limit_burst_size (api : Api) : Nat := api.rate_limit.2

/-- Modelled from actix-governor: the finished `GovernorConfig`. `per_second(s)`
sets the quota's replenish INTERVAL to `s` seconds (the crate documents
`per_second(2)` as "replenishes one element every two seconds"), kept here in
nanoseconds as in the underlying governor crate; `burst_size` is the quota's
burst capacity. -/
structure GovernorConfig where
  period_ns : Nat
  burst : Nat
deriving DecidableEq

/-- Modelled from actix-governor:
`GovernorConfigBuilder::default().per_second(s).burst_size(b).finish()`
(api.rs lines 173-177 build exactly this). `finish` returns `None` when the
period or the burst size is zero. -/
def governorFinish (per_second burst_size : Nat) : Option GovernorConfig :=
  if per_second = 0 ∨ burst_size = 0 then none
  else some ⟨per_second * 1000000000, burst_size⟩

/-- A middleware layer registered on the actix `App` (api.rs lines 187-188). -/
inductive Middleware where
  | cors (c : Cors)
  | governor (g : GovernorConfig)
deriving DecidableEq

/-- The actix `App` under construction: its middleware stack (outermost first)
and its registered services. -/
structure App where
  wrappers : List Middleware
  services : ServiceConfig
deriving DecidableEq

/-- `App::new` (api.rs line 186): no middleware, no services. -/
def App.new : App := ⟨[], []⟩

/-- Modelled from actix-web `App::wrap`: middleware run in the reverse order of
registration, so the newly registered middleware becomes the outermost layer —
it is the first to see a request. `wrappers` is kept outermost-first. -/
def App.wrap (app : App) (m : Middleware) : App :=
  ⟨m :: app.wrappers, app.services⟩

/-- Modelled from actix-web `App::configure`: runs the callback on the service
configuration, leaving the middleware stack untouched. -/
def App.configure (app : App) (f : ServiceConfig → ServiceConfig) : App :=
  ⟨app.wrappers, f app.services⟩

/-- The per-worker application factory closure passed to `HttpServer::new`
(api.rs lines 184-196): invoke the CORS factory, register the CORS wrapper, then
the Governor wrapper, then apply the custom routes if provided. -/
def Api.workerApp (api : Api) (gc : GovernorConfig) : App :=
  let cors := api.custom_cors ()
  let app := (App.new.wrap (.cors cors)).wrap (.governor gc)
  match api.custom_routes with
  | some f => app.configure f
  | none => app

/-- How the call to `Api::start` ends: a panic (from `expect`/`unwrap`), a normal
return after printing the ERROR line (the `if let Err(e)` branch, api.rs
lines 200-202), or serving until process termination. -/
inductive StartOutcome where
  | panicked (msg : String)
  | errReturn
  | serving
deriving DecidableEq

/-- Observable result of `Api::start`: the lines printed, how the call ended,
whether a listener was bound, and how many workers were spawned. -/
structure StartResult where
  logs : List String
  outcome : StartOutcome
  listenerBound : Bool
  workersSpawned : Nat
deriving DecidableEq

/-- Embedding of `Api::start` (api.rs lines 166-203). `fs` is the file-system view,
`numWorkers` the implementation-defined worker-pool size `HttpServer` would spawn,
`bindOk` whether binding `addr:port` succeeds. The source calls
`load_rustls_config(..).expect("TLS failed")` (line 171), so a load failure prints
the loader's diagnostic and then panics; `finish().unwrap()` (line 177) panics on
an invalid rate-limit pair; a bind failure is the `Err` caught at line 200,
printed and swallowed. Workers are spawned by `run()` only after a successful
bind. -/
def Api.start (api : Api) (fs : Fs) (numWorkers : Nat) (bindOk : Bool) :
    StartResult :=
  let log0 := ["INFO: Starting API server..."]
  match load_rustls_config fs api.cert_path api.key_path with
  | .error e =>
      ⟨log0 ++ [tlsErrorMsg e api.cert_path api.key_path],
        .panicked "TLS failed", false, 0⟩
  | .ok _ =>
    match governorFinish api.rate_limit.1 api.rate_limit.2 with
    | none => ⟨log0, .panicked "unwrap on None", false, 0⟩
    | some _ =>
      let bindAddr := api.addr ++ ":" ++ toString api.port
      if bindOk then
        ⟨log0 ++ ["INFO: Server binding to " ++ bindAddr],
          .serving, true, numWorkers⟩
      else
        ⟨log0 ++ ["INFO: Server binding to " ++ bindAddr,
            "ERROR: Failed to start API server"],
          .errReturn, false, 0⟩

/-- Modelled from the governor crate backing actix-governor: per-client admission
state, a token bucket refilled continuously at nanosecond resolution (governor's
GCRA works in integer nanoseconds). Availability is kept exactly, in units of
`1 / period_ns` of a token, so one unit accrues per nanosecond; `period_ns` units
make one whole token. -/
structure Bucket where
  avail_units : Nat
  last_ns : Nat
deriving DecidableEq

/-- One admission decision at time `t` ns: accrue one unit per nanosecond since
the last update, capped at the capacity `burst * period_ns` units; admit and
spend one token (`period_ns` units) when at least one whole token is available,
else reject. -/
def Bucket.request (gc : GovernorConfig) (b : Bucket) (t : Nat) : Bool × Bucket :=
  let units := min (gc.burst * gc.period_ns) (b.avail_units + (t - b.last_ns))
  if gc.period_ns ≤ units then (true, ⟨units - gc.period_ns, t⟩)
  else (false, ⟨units, t⟩)

/-- Run one client's requests at the given times (ns, nondecreasing) against the
given bucket state; returns the per-request admission decisions. -/
def runRequests (gc : GovernorConfig) : Bucket → List Nat → List Bool
  | _, [] => []
  | b, t :: ts =>
    let r := Bucket.request gc b t
    r.1 :: runRequests gc r.2 ts

/-- The bucket a client starts from: full burst capacity. -/
def Bucket.full (gc : GovernorConfig) : Bucket := ⟨gc.burst * gc.period_ns, 0⟩

/-- One builder-setter call other than `certs`, for stating frame properties over
arbitrary sequences of unrelated setter calls. -/
inductive Setter where
  | auth_db (path : String)
  | rate_limit (per_second burst_size : Nat)
  | bind (addr : String) (port : Nat)
  | configure_routes (routes : Routes)
  | configure_cors (f : Unit → Cors)

/-- Apply one setter call. -/
def applySetter (api : Api) : Setter → Api
  | .auth_db p => api.auth_db p
  | .rate_limit ps bs => api.set_rate_limit ps bs
  | .bind a p => api.bind a p
  | .configure_routes r => api.configure_routes r
  | .configure_cors f => api.configure_cors f

/-- Apply a sequence of setter calls, left to right. -/
def applySetters (api : Api) : List Setter → Api
  | [] => api
  | s :: ss => applySetters (applySetter api s) ss

/-- A file system on which every file is unreadable. -/
def fsUnreadable : Fs := ⟨fun _ => none, fun _ => none, fun _ _ => false⟩

/-- A certificate file whose second PEM block is malformed, with a key matching
the leaf certificate. -/
def fsMixed : Fs :=
  ⟨fun _ => some [.ok 1, .bad, .ok 2], fun _ => some 1, fun k c => k == c⟩

/-- A well-formed single-certificate file with a matching key. -/
def fsGood : Fs := ⟨fun _ => some [.ok 5], fun _ => some 5, fun k c => k == c⟩

/-- A readable certificate file all of whose blocks are malformed. -/
def fsAllBad : Fs := ⟨fun _ => some [.bad, .bad], fun _ => some 5, fun k c => k == c⟩

/-- A good certificate file but no parseable private key. -/
def fsNoKey : Fs := ⟨fun _ => some [.ok 7], fun _ => none, fun k c => k == c⟩

/-- A good certificate file and a parseable key that does not match the leaf. -/
def fsMismatch : Fs := ⟨fun _ => some [.ok 7], fun _ => some 8, fun k c => k == c⟩

/-- The governor config that `start` builds from the default rate limit (3, 20):
a 3-second replenish interval and burst capacity 20. -/
def gc0 : GovernorConfig := ⟨3000000000, 20⟩

/-- C3 counterexample: `fsMixed`'s certificate file is readable but its second PEM
block is malformed; `load_rustls_config` nevertheless SUCCEEDS — `res.flatten()`
(config.rs line 15) silently drops the malformed block — contradicting "it never
succeeds on such input". -/
theorem load_succeeds_despite_malformed_block_cex :
    fsMixed.pemFile "certs/cert.pem" = some [.ok 1, .bad, .ok 2] ∧
    load_rustls_config fsMixed "certs/cert.pem" "certs/key.pem" =
      .ok ⟨[1, 2], 1, false⟩ :=
  ⟨rfl, rfl⟩

/-- C3 (amended): `load_rustls_config` fails with `PemParseError` exactly when the
certificate file is unreadable (the outer `Err` of `pem_file_iter`); a readable
file never yields `PemParseError` — malformed blocks are skipped, and failure can
then only be `EmptyChain`, `KeyLoadError` or `TlsConfigError`. -/
theorem load_pem_parse_error_only_when_unreadable (fs : Fs) (cp kp : String) :
    (fs.pemFile cp = none →
        load_rustls_config fs cp kp = .error .PemParseError) ∧
    (∀ items, fs.pemFile cp = some items →
        load_rustls_config fs cp kp ≠ .error .PemParseError) := by
  constructor
  · intro h
    simp [load_rustls_config, h]
  · intro items h
    cases hc : collectCerts items with
    | nil =>
      have hld : load_rustls_config fs cp kp = .error .EmptyChain := by
        simp [load_rustls_config, h, hc]
      rw [hld]
      simp
    | cons leaf rest =>
      cases hk : fs.keyFile kp with
      | none =>
        have hld : load_rustls_config fs cp kp = .error .KeyLoadError := by
          simp [load_rustls_config, h, hc, hk]
        rw [hld]
        simp
      | some key =>
        cases hm : fs.keyMatches key leaf with
        | false =>
          have hld : load_rustls_config fs cp kp = .error .TlsConfigError := by
            simp [load_rustls_config, h, hc, hk, hm]
          rw [hld]
          simp
        | true =>
          have hld : load_rustls_config fs cp kp =
              .ok ⟨leaf :: rest, key, false⟩ := by
            simp [load_rustls_config, h, hc, hk, hm]
          rw [hld]
          simp

/-- Witness for C3's amended theorem at concrete inputs. -/
theorem load_pem_parse_error_only_when_unreadable_witness :
    load_rustls_config fsUnreadable "certs/cert.pem" "certs/key.pem" =
        .error .PemParseError ∧
    load_rustls_config fsMixed "certs/cert.pem" "certs/key.pem" ≠
        .error .PemParseError :=
  ⟨(load_pem_parse_error_only_when_unreadable fsUnreadable "certs/cert.pem"
      "certs/key.pem").1 rfl,
    (load_pem_parse_error_only_when_unreadable fsMixed "certs/cert.pem"
      "certs/key.pem").2 [.ok 1, .bad, .ok 2] rfl⟩

/-- C4: if the certificate file is readable and at least one PEM block parses,
`load_rustls_config` does not fail on the malformed blocks — they are silently
skipped by `res.flatten()` (config.rs line 15): the result is never
`PemParseError` or `EmptyChain`, and any identity returned carries exactly the
parseable blocks, in file order. -/
theorem load_skips_malformed_blocks (fs : Fs) (cp kp : String)
    (items : List PemItem) (hr : fs.pemFile cp = some items)
    (hne : collectCerts items ≠ []) :
    load_rustls_config fs cp kp ≠ .error .PemParseError ∧
    load_rustls_config fs cp kp ≠ .error .EmptyChain ∧
    ∀ cfg, load_rustls_config fs cp kp = .ok cfg →
      cfg.cert_chain = collectCerts items := by
  cases hc : collectCerts items with
  | nil => exact absurd hc hne
  | cons leaf rest =>
    cases hk : fs.keyFile kp with
    | none =>
      have hld : load_rustls_config fs cp kp = .error .KeyLoadError := by
        simp [load_rustls_config, hr, hc, hk]
      rw [hld]
      refine ⟨by simp, by simp, ?_⟩
      intro cfg hcfg
      simp at hcfg
    | some key =>
      cases hm : fs.keyMatches key leaf with
      | false =>
        have hld : load_rustls_config fs cp kp = .error .TlsConfigError := by
          simp [load_rustls_config, hr, hc, hk, hm]
        rw [hld]
        refine ⟨by simp, by simp, ?_⟩
        intro cfg hcfg
        simp at hcfg
      | true =>
        have hld : load_rustls_config fs cp kp =
            .ok ⟨leaf :: rest, key, false⟩ := by
          simp [load_rustls_config, hr, hc, hk, hm]
        rw [hld]
        refine ⟨by simp, by simp, ?_⟩
        intro cfg hcfg
        injection hcfg with h2
        rw [← h2]

/-- Witness for C4's theorem at concrete inputs. -/
theorem load_skips_malformed_blocks_witness :
    fsMixed.pemFile "certs/cert.pem" = some [.ok 1, .bad, .ok 2] ∧
    collectCerts [.ok 1, .bad, .ok 2] ≠ [] ∧
    load_rustls_config fsMixed "certs/cert.pem" "certs/key.pem" ≠
        .error .PemParseError ∧
    load_rustls_config fsMixed "certs/cert.pem" "certs/key.pem" ≠
        .error .EmptyChain ∧
    ∀ cfg,
      load_rustls_config fsMixed "certs/cert.pem" "certs/key.pem" = .ok cfg →
        cfg.cert_chain = collectCerts [.ok 1, .bad, .ok 2] := by
  refine ⟨rfl, by decide, ?_⟩
  exact load_skips_malformed_blocks fsMixed "certs/cert.pem" "certs/key.pem"
    [.ok 1, .bad, .ok 2] rfl (by decide)

/-- C6: for a readable certificate file whose parseable blocks are `leaf :: rest`
(that is, k ≥ 1 certificate blocks, in file order) and a private key that matches
the leaf certificate, `load_rustls_config` returns exactly the identity whose
chain is those k certificates in file order, with the loaded key and no client
authentication. -/
theorem load_chain_eq_parseable_blocks (fs : Fs) (cp kp : String)
    (items : List PemItem) (leaf key : Nat) (rest : List Nat)
    (hr : fs.pemFile cp = some items) (hc : collectCerts items = leaf :: rest)
    (hk : fs.keyFile kp = some key) (hm : fs.keyMatches key leaf = true) :
    load_rustls_config fs cp kp = .ok ⟨collectCerts items, key, false⟩ := by
  simp [load_rustls_config, hr, hc, hk, hm]

/-- Witness for C6's theorem at concrete inputs (k = 2 parseable blocks). -/
theorem load_chain_eq_parseable_blocks_witness :
    collectCerts [.ok 1, .bad, .ok 2] = 1 :: [2] ∧
    (collectCerts [.ok 1, .bad, .ok 2]).length = 2 ∧
    load_rustls_config fsMixed "certs/cert.pem" "certs/key.pem" =
      .ok ⟨collectCerts [.ok 1, .bad, .ok 2], 1, false⟩ :=
  ⟨rfl, rfl, load_chain_eq_parseable_blocks fsMixed "certs/cert.pem"
    "certs/key.pem" [.ok 1, .bad, .ok 2] 1 1 [2] rfl rfl rfl rfl⟩

/-- C7: `load_rustls_config` never returns a partial identity: a readable file
with zero parseable certificate blocks fails with `EmptyChain`; a nonempty chain
with no parseable private key fails with `KeyLoadError`; a key that does not
match the leaf certificate fails with `TlsConfigError`; and every success is a
complete identity — a nonempty chain equal to all parseable blocks together with
the key-file key, which matches the leaf. -/
theorem load_never_partial_identity (fs : Fs) (cp kp : String) :
    (∀ items, fs.pemFile cp = some items → collectCerts items = [] →
        load_rustls_config fs cp kp = .error .EmptyChain) ∧
    (∀ items leaf rest, fs.pemFile cp = some items →
        collectCerts items = leaf :: rest → fs.keyFile kp = none →
        load_rustls_config fs cp kp = .error .KeyLoadError) ∧
    (∀ items leaf rest key, fs.pemFile cp = some items →
        collectCerts items = leaf :: rest → fs.keyFile kp = some key →
        fs.keyMatches key leaf = false →
        load_rustls_config fs cp kp = .error .TlsConfigError) ∧
    (∀ cfg, load_rustls_config fs cp kp = .ok cfg →
        ∃ items, fs.pemFile cp = some items ∧
          cfg.cert_chain = collectCerts items ∧
          fs.keyFile kp = some cfg.key_der ∧
          ∃ leaf rest, cfg.cert_chain = leaf :: rest ∧
            fs.keyMatches cfg.key_der leaf = true) := by
  refine ⟨?_, ?_, ?_, ?_⟩
  · intro items h1 h2
    simp [load_rustls_config, h1, h2]
  · intro items leaf rest h1 h2 h3
    simp [load_rustls_config, h1, h2, h3]
  · intro items leaf rest key h1 h2 h3 h4
    simp [load_rustls_config, h1, h2, h3, h4]
  · intro cfg
    cases hr : fs.pemFile cp with
    | none =>
      have hld : load_rustls_config fs cp kp = .error .PemParseError := by
        simp [load_rustls_config, hr]
      rw [hld]
      intro h
      simp at h
    | some items =>
      cases hc : collectCerts items with
      | nil =>
        have hld : load_rustls_config fs cp kp = .error .EmptyChain := by
          simp [load_rustls_config, hr, hc]
        rw [hld]
        intro h
        simp at h
      | cons leaf rest =>
        cases hk : fs.keyFile kp with
        | none =>
          have hld : load_rustls_config fs cp kp = .error .KeyLoadError := by
            simp [load_rustls_config, hr, hc, hk]
          rw [hld]
          intro h
          simp at h
        | some key =>
          cases hm : fs.keyMatches key leaf with
          | false =>
            have hld : load_rustls_config fs cp kp = .error .TlsConfigError := by
              simp [load_rustls_config, hr, hc, hk, hm]
            rw [hld]
            intro h
            simp at h
          | true =>
            have hld : load_rustls_config fs cp kp =
                .ok ⟨leaf :: rest, key, false⟩ := by
              simp [load_rustls_config, hr, hc, hk, hm]
            rw [hld]
            intro h
            injection h with h2
            rw [← h2]
            exact ⟨items, rfl, hc.symm, rfl, leaf, rest, rfl, hm⟩

/-- Witness for C7's theorem: each failure branch and the success shape at
concrete inputs. -/
theorem load_never_partial_identity_witness :
    load_rustls_config fsAllBad "c" "k" = .error .EmptyChain ∧
    load_rustls_config fsNoKey "c" "k" = .error .KeyLoadError ∧
    load_rustls_config fsMismatch "c" "k" = .error .TlsConfigError ∧
    (∃ items, fsGood.pemFile "c" = some items ∧
      (ServerConfig.mk [5] 5 false).cert_chain = collectCerts items ∧
      fsGood.keyFile "k" = some (ServerConfig.mk [5] 5 false).key_der ∧
      ∃ leaf rest, (ServerConfig.mk [5] 5 false).cert_chain = leaf :: rest ∧
        fsGood.keyMatches (ServerConfig.mk [5] 5 false).key_der leaf = true) :=
  ⟨(load_never_partial_identity fsAllBad "c" "k").1 [.bad, .bad] rfl rfl,
    (load_never_partial_identity fsNoKey "c" "k").2.1 [.ok 7] 7 [] rfl rfl rfl,
    (load_never_partial_identity fsMismatch "c" "k").2.2.1 [.ok 7] 7 [] 8
      rfl rfl rfl rfl,
    (load_never_partial_identity fsGood "c" "k").2.2.2 ⟨[5], 5, false⟩ rfl⟩

/-- C1 counterexample: with an unreadable certificate file (credential loading
fails), `start` on the default configuration does not return normally as a
no-op — it panics with "TLS failed" via `expect` (api.rs line 171), aborting
rather than transitioning cleanly to Stopped. No listener is bound and no worker
is spawned. -/
theorem start_tls_failure_no_noop_return_cex :
    (Api.new.start fsUnreadable 4 true).outcome = .panicked "TLS failed" ∧
    (Api.new.start fsUnreadable 4 true).outcome ≠ .errReturn ∧
    (Api.new.start fsUnreadable 4 true).outcome ≠ .serving ∧
    (Api.new.start fsUnreadable 4 true).listenerBound = false ∧
    (Api.new.start fsUnreadable 4 true).workersSpawned = 0 := by
  refine ⟨rfl, ?_, ?_, rfl, rfl⟩ <;> decide

/-- C1 (amended): for every certificate path and key path on which credential
loading fails, `start` logs the loader's diagnostic, binds no listener and
spawns no worker — but it then panics via `expect("TLS failed")` (api.rs
line 171) rather than returning normally as a no-op. -/
theorem start_tls_failure_logs_and_panics (api : Api) (fs : Fs) (n : Nat)
    (bindOk : Bool) (e : TlsError)
    (h : load_rustls_config fs api.cert_path api.key_path = .error e) :
    api.start fs n bindOk =
      ⟨["INFO: Starting API server...",
          tlsErrorMsg e api.cert_path api.key_path],
        .panicked "TLS failed", false, 0⟩ := by
  simp [Api.start, h]

/-- Witness for C1's amended theorem at a concrete input. -/
theorem start_tls_failure_logs_and_panics_witness :
    load_rustls_config fsUnreadable Api.new.cert_path Api.new.key_path =
        .error .PemParseError ∧
    Api.new.start fsUnreadable 4 true =
      ⟨["INFO: Starting API server...",
          tlsErrorMsg .PemParseError Api.new.cert_path Api.new.key_path],
        .panicked "TLS failed", false, 0⟩ :=
  ⟨rfl, start_tls_failure_logs_and_panics Api.new fsUnreadable 4 true
    .PemParseError rfl⟩

/-- C2 (code bug): with `perSecond = 0` or `burstSize = 0` and loadable
credentials, the governor builder's `finish()` yields `None` and `start` panics
on `.unwrap()` (api.rs line 177): an unchecked abort, not a ConfigError surfaced
as a logged diagnostic with a no-op return. No listener is bound and no worker
is spawned. -/
theorem start_zero_rate_limit_unchecked_panic :
    ((Api.new.set_rate_limit 0 20).start fsGood 4 true).outcome =
        .panicked "unwrap on None" ∧
    ((Api.new.set_rate_limit 3 0).start fsGood 4 true).outcome =
        .panicked "unwrap on None" ∧
    ((Api.new.set_rate_limit 0 20).start fsGood 4 true).outcome ≠ .errReturn ∧
    ((Api.new.set_rate_limit 0 20).start fsGood 4 true).listenerBound = false ∧
    ((Api.new.set_rate_limit 0 20).start fsGood 4 true).workersSpawned = 0 := by
  refine ⟨rfl, rfl, ?_, rfl, rfl⟩
  decide

/-- C5 counterexample: for the default configuration and the governor config its
rate limit produces, the assembled wrapper stack is NOT CORS-outermost:
`.wrap(cors)` is registered first and `.wrap(Governor)` second (api.rs
lines 186-188), and actix-web runs middleware in reverse registration order, so
the Governor is the outermost layer. -/
theorem worker_app_cors_not_outermost_cex :
    (Api.new.workerApp gc0).wrappers ≠
      [.cors (Api.new.custom_cors ()), .governor gc0] := by
  decide

/-- C5 (amended): for every worker, the per-worker application is assembled with
the admission (Governor) wrapper outermost, the CORS wrapper inside it, and the
route-registrar invocation innermost; when no registrar was configured, the
assembled application has no routes. -/
theorem worker_app_governor_outermost (api : Api) (gc : GovernorConfig) :
    (api.workerApp gc).wrappers =
      [.governor gc, .cors (api.custom_cors ())] ∧
    (api.custom_routes = none → (api.workerApp gc).services = []) := by
  unfold Api.workerApp
  cases h : api.custom_routes with
  | none => exact ⟨rfl, fun _ => rfl⟩
  | some f => exact ⟨rfl, fun hn => nomatch hn⟩

/-- Witness for C5's amended theorem at a concrete input (the default Api, which
has no registrar). -/
theorem worker_app_governor_outermost_witness :
    (Api.new.workerApp gc0).wrappers =
      [.governor gc0, .cors (Api.new.custom_cors ())] ∧
    Api.new.custom_routes = none ∧
    (Api.new.workerApp gc0).services = [] :=
  ⟨(worker_app_governor_outermost Api.new gc0).1, rfl,
    (worker_app_governor_outermost Api.new gc0).2 rfl⟩

/-- C8 counterexample: the default CORS factory stored by `Api::new` (api.rs
line 41) returns `Cors::default()`, which actix-cors documents as the
restrictive, security-first default — not a permissive policy: it allows no
origin, no method and no header. -/
theorem default_cors_restrictive_cex :
    Api.new.custom_cors () ≠ Cors.permissive ∧
    (Api.new.custom_cors ()).allow_any_origin = false ∧
    (Api.new.custom_cors ()).allow_any_method = false ∧
    (Api.new.custom_cors ()).allow_any_header = false := by
  refine ⟨?_, rfl, rfl, rfl⟩
  decide

/-- C8 (amended): `Api::new()` yields exactly the default configuration — cert
path "certs/cert.pem", key path "certs/key.pem", db path "users.db", addr
"127.0.0.1", port 8443 (bind address "127.0.0.1:8443"), rate limit (3, 20), no
custom routes — and a default CORS factory returning `Cors::default()`,
actix-cors's restrictive security-first default, not a permissive policy. -/
theorem api_new_default_values :
    Api.new.get_cert_path = "certs/cert.pem" ∧
    Api.new.get_key_path = "certs/key.pem" ∧
    Api.new.get_db_path = "users.db" ∧
    Api.new.get_addr = "127.0.0.1" ∧
    Api.new.get_port = 8443 ∧
    Api.new.get_bind_addr = "127.0.0.1:8443" ∧
    Api.new.get_rate_limit = (3, 20) ∧
    Api.new.get_rate_limit_per_second = 3 ∧
    Api.new.get_rate_limit_burst_size = 20 ∧
    Api.new.custom_routes = none ∧
    Api.new.custom_cors = fun _ => Cors.default :=
  ⟨rfl, rfl, rfl, rfl, rfl, rfl, rfl, rfl, rfl, rfl, rfl⟩

/-- Setter calls other than `certs` never touch the certificate or key path. -/
theorem applySetter_preserves_certs (api : Api) (s : Setter) :
    (applySetter api s).cert_path = api.cert_path ∧
    (applySetter api s).key_path = api.key_path := by
  cases s <;> exact ⟨rfl, rfl⟩

/-- Sequences of setter calls other than `certs` never touch the certificate or
key path. -/
theorem applySetters_preserves_certs (api : Api) (ss : List Setter) :
    (applySetters api ss).cert_path = api.cert_path ∧
    (applySetters api ss).key_path = api.key_path := by
  induction ss generalizing api with
  | nil => exact ⟨rfl, rfl⟩
  | cons s ss ih =>
    have h1 := applySetter_preserves_certs api s
    have h2 := ih (applySetter api s)
    exact ⟨h2.1.trans h1.1, h2.2.trans h1.2⟩

/-- C9: every builder setter overwrites exactly the fields it targets and leaves
every other field unchanged, independent of call order and with no validation;
in particular, for all strings a and b, `.certs(a, b)` followed by reading back
the cert and key paths yields exactly a and b, regardless of arbitrary sequences
of unrelated setter calls before and after. -/
theorem setters_frame_and_certs_readback (api : Api) (a b p ad : String)
    (ps bs pt : Nat) (r : Routes) (f : Unit → Cors)
    (pre post : List Setter) :
    ((api.certs a b).cert_path = a ∧ (api.certs a b).key_path = b ∧
      (api.certs a b).db_path = api.db_path ∧
      (api.certs a b).addr = api.addr ∧ (api.certs a b).port = api.port ∧
      (api.certs a b).rate_limit = api.rate_limit ∧
      (api.certs a b).custom_routes = api.custom_routes ∧
      (api.certs a b).custom_cors = api.custom_cors) ∧
    ((api.auth_db p).db_path = p ∧
      (api.auth_db p).cert_path = api.cert_path ∧
      (api.auth_db p).key_path = api.key_path ∧
      (api.auth_db p).addr = api.addr ∧ (api.auth_db p).port = api.port ∧
      (api.auth_db p).rate_limit = api.rate_limit ∧
      (api.auth_db p).custom_routes = api.custom_routes ∧
      (api.auth_db p).custom_cors = api.custom_cors) ∧
    ((api.set_rate_limit ps bs).rate_limit = (ps, bs) ∧
      (api.set_rate_limit ps bs).cert_path = api.cert_path ∧
      (api.set_rate_limit ps bs).key_path = api.key_path ∧
      (api.set_rate_limit ps bs).db_path = api.db_path ∧
      (api.set_rate_limit ps bs).addr = api.addr ∧
      (api.set_rate_limit ps bs).port = api.port ∧
      (api.set_rate_limit ps bs).custom_routes = api.custom_routes ∧
      (api.set_rate_limit ps bs).custom_cors = api.custom_cors) ∧
    ((api.bind ad pt).addr = ad ∧ (api.bind ad pt).port = pt ∧
      (api.bind ad pt).cert_path = api.cert_path ∧
      (api.bind ad pt).key_path = api.key_path ∧
      (api.bind ad pt).db_path = api.db_path ∧
      (api.bind ad pt).rate_limit = api.rate_limit ∧
      (api.bind ad pt).custom_routes = api.custom_routes ∧
      (api.bind ad pt).custom_cors = api.custom_cors) ∧
    ((api.configure_routes r).custom_routes =
        some (fun cfg => r.configure cfg) ∧
      (api.configure_routes r).cert_path = api.cert_path ∧
      (api.configure_routes r).key_path = api.key_path ∧
      (api.configure_routes r).db_path = api.db_path ∧
      (api.configure_routes r).addr = api.addr ∧
      (api.configure_routes r).port = api.port ∧
      (api.configure_routes r).rate_limit = api.rate_limit ∧
      (api.configure_routes r).custom_cors = api.custom_cors) ∧
    ((api.configure_cors f).custom_cors = f ∧
      (api.configure_cors f).cert_path = api.cert_path ∧
      (api.configure_cors f).key_path = api.key_path ∧
      (api.configure_cors f).db_path = api.db_path ∧
      (api.configure_cors f).addr = api.addr ∧
      (api.configure_cors f).port = api.port ∧
      (api.configure_cors f).rate_limit = api.rate_limit ∧
      (api.configure_cors f).custom_routes = api.custom_routes) ∧
    ((applySetters ((applySetters api pre).certs a b) post).get_cert_path = a ∧
      (applySetters ((applySetters api pre).certs a b) post).get_key_path = b) := by
  refine ⟨⟨rfl, rfl, rfl, rfl, rfl, rfl, rfl, rfl⟩,
    ⟨rfl, rfl, rfl, rfl, rfl, rfl, rfl, rfl⟩,
    ⟨rfl, rfl, rfl, rfl, rfl, rfl, rfl, rfl⟩,
    ⟨rfl, rfl, rfl, rfl, rfl, rfl, rfl, rfl⟩,
    ⟨rfl, rfl, rfl, rfl, rfl, rfl, rfl, rfl⟩,
    ⟨rfl, rfl, rfl, rfl, rfl, rfl, rfl, rfl⟩, ?_, ?_⟩
  · exact (applySetters_preserves_certs ((applySetters api pre).certs a b)
      post).1
  · exact (applySetters_preserves_certs ((applySetters api pre).certs a b)
      post).2

/-- C10 (code bug): `start` passes `rate_limit.0 = 3` to actix-governor's
`per_second`, which sets the token REPLENISH INTERVAL — one token every
3 seconds — although the builder's own documentation (api.rs line 91, "Number of
requests allowed per second") and the spec describe it as 3 tokens per second.
From a full bucket, 20 immediate requests are admitted and the 21st is rejected
(as the claim states), but a request 1/3 second later (333333334 ns) is ALSO
rejected; the next admission requires a 3-second wait. -/
theorem rate_limit_replenish_interval_divergence :
    governorFinish 3 20 = some gc0 ∧
    gc0.period_ns = 3000000000 ∧
    runRequests gc0 (Bucket.full gc0) (List.replicate 21 0 ++ [333333334]) =
      List.replicate 20 true ++ [false, false] ∧
    runRequests gc0 (Bucket.full gc0) (List.replicate 21 0 ++ [3000000000]) =
      List.replicate 20 true ++ [false, true] := by
  refine ⟨by decide, rfl, by decide, by decide⟩
